import Mathlib

/-!
Verification of the keploy traffic-interception core against its source.

The embedding below follows the Go sources:
  * `src/unnamed/part_002` — package `connection`, the per-connection `Tracker`
    (`AddDataEvent`, `IsComplete`, `resetConnection`, `maxBufferSize`).
  * `src/pkg/proxy/integrations/httpparser/httpparser.go` — the HTTP parser
    (`OutgoingType`, `decodeOutgoingHttp`, `encodeOutgoingHttp`, `ParseFinalHttp`).

Go byte slices are modelled as `List Nat` (one entry per byte), Go `uint64`
as `Nat` reduced modulo `2 ^ 64` where the code can overflow, and Go `int32`
as `Int` with explicit wrap-around.  Network reads and writes, the gzip codec
and the status-text table live outside this repository; they enter the model
as explicit parameters of the functions that use them.
-/

/-- Reduction modulo `2 ^ 64`, the behaviour of Go `uint64` addition. -/
def wrap64 (n : Nat) : Nat := n % (2 ^ 64)

/-- Wrap-around of Go `int32` arithmetic (`atomic.AddInt32`). -/
def wrapInt32 (n : Int) : Int := (n + 2 ^ 31) % 2 ^ 32 - 2 ^ 31

/-- Go `uint64` subtraction `a - b`, which wraps modulo `2 ^ 64`. -/
def sub64 (a b : Nat) : Nat := (a % 2 ^ 64 + 2 ^ 64 - b % 2 ^ 64) % 2 ^ 64

/-- Bytes of a Go string literal (all literals used here are ASCII). -/
def bs (s : String) : List Nat := s.data.map Char.toNat

/-- The constant `maxBufferSize = 16 * 1024 * 1024` of `src/unnamed/part_002`. -/
def maxBufferSize : Nat := 16 * 1024 * 1024

/-- Direction tag of `structs2.SocketDataEvent` (`EgressTraffic`,
`IngressTraffic`, or any other value reaching the `default` case). -/
inductive TrafficDirection where
  | egress
  | ingress
  | other
deriving DecidableEq

/-- The fields of `structs2.SocketDataEvent` that `AddDataEvent` reads.
`msg` stands for the fixed-size byte array `Msg`. -/
structure SocketDataEvent where
  direction : TrafficDirection
  msgSize : Nat
  msg : List Nat
  validateReadBytes : Nat
  validateWrittenBytes : Nat

/-- The `Tracker` struct of package `connection` (src/unnamed/part_002),
without the mutex, logger and connection id, which no claim mentions. -/
structure Tracker where
  openTimestamp : Nat
  closeTimestamp : Nat
  lastActivityTimestamp : Nat
  totalSentBytesQueue : List Nat
  totalRecvBytesQueue : List Nat
  currentSentBytesQueue : List Nat
  currentRecvBytesQueue : List Nat
  currentSentBufQueue : List (List Nat)
  currentRecvBufQueue : List (List Nat)
  sentBytes : Nat
  recvBytes : Nat
  SentBuf : List Nat
  RecvBuf : List Nat
  gotResponseDataEvent : Bool
  gotRequestDataEvent : Bool
  recordTestCountAtomic : Int
  firstRequest : Bool
deriving DecidableEq

/-- `NewTracker`: empty buffers and queues, `firstRequest` true, all other
fields at their Go zero value. -/
def newTracker : Tracker where
  openTimestamp := 0
  closeTimestamp := 0
  lastActivityTimestamp := 0
  totalSentBytesQueue := []
  totalRecvBytesQueue := []
  currentSentBytesQueue := []
  currentRecvBytesQueue := []
  currentSentBufQueue := []
  currentRecvBufQueue := []
  sentBytes := 0
  recvBytes := 0
  SentBuf := []
  RecvBuf := []
  gotResponseDataEvent := false
  gotRequestDataEvent := false
  recordTestCountAtomic := 0
  firstRequest := true

/-- `incRecordTestCount`: `atomic.AddInt32(&conn.recordTestCountAtomic, 1)`. -/
def Tracker.incRecordTestCount (conn : Tracker) : Tracker :=
  { conn with recordTestCountAtomic := wrapInt32 (conn.recordTestCountAtomic + 1) }

/-- `decRecordTestCount`: `atomic.AddInt32(&conn.recordTestCountAtomic, -1)`. -/
def Tracker.decRecordTestCount (conn : Tracker) : Tracker :=
  { conn with recordTestCountAtomic := wrapInt32 (conn.recordTestCountAtomic - 1) }

/-- `verifyRequestData`: `expectedRecvBytes == actualRecvBytes`. -/
def Tracker.verifyRequestData (expectedRecvBytes actualRecvBytes : Nat) : Bool :=
  expectedRecvBytes == actualRecvBytes

/-- `verifyResponseData`: `expectedSentBytes == actualSentBytes`. -/
def Tracker.verifyResponseData (expectedSentBytes actualSentBytes : Nat) : Bool :=
  expectedSentBytes == actualSentBytes

/-- `resetConnection`: fresh flags, zero byte counters, empty buffers.
The six queues are left untouched. -/
def Tracker.resetConnection (conn : Tracker) : Tracker :=
  { conn with
    firstRequest := true
    gotResponseDataEvent := false
    gotRequestDataEvent := false
    recvBytes := 0
    sentBytes := 0
    SentBuf := []
    RecvBuf := [] }

/-- Result of one `IsComplete` call: the returned triple together with the
tracker state after the call. -/
structure IsCompleteResult where
  recordTraffic : Bool
  requestBuf : List Nat
  responseBuf : List Nat
  conn : Tracker

/-- `IsComplete` (src/unnamed/part_002, lines 88-209).  `now` is the value of
`time.Now().UnixNano()` observed inside the call. -/
def Tracker.isComplete (now : Nat) (conn : Tracker) : IsCompleteResult :=
  -- elapsedTime := currentTimestamp - conn.lastActivityTimestamp (uint64)
  if 0 < conn.recordTestCountAtomic then
    -- lines 106-161: one queued exchange is validated and popped, then the
    -- counter is decremented
    match conn.currentRecvBytesQueue, conn.totalRecvBytesQueue,
          conn.currentSentBytesQueue, conn.totalSentBytesQueue with
    | expectedRecvBytes :: crq, actualRecvBytes :: trq,
      expectedSentBytes :: csq, actualSentBytes :: tsq =>
      match conn.currentRecvBufQueue, conn.currentSentBufQueue with
      | requestBuf :: rbq, responseBuf :: sbq =>
        -- line 151 assigns recordTraffic after the buffer branch, so the
        -- verdict is validReq and validRes in either case
        { recordTraffic := Tracker.verifyRequestData expectedRecvBytes actualRecvBytes &&
            Tracker.verifyResponseData expectedSentBytes actualSentBytes
          requestBuf := requestBuf
          responseBuf := responseBuf
          conn := Tracker.decRecordTestCount { conn with
            currentRecvBytesQueue := crq
            totalRecvBytesQueue := trq
            currentSentBytesQueue := csq
            totalSentBytesQueue := tsq
            currentRecvBufQueue := rbq
            currentSentBufQueue := sbq } }
      | _, _ =>
        -- line 147: no buffer entry to pop, nothing is returned
        { recordTraffic := Tracker.verifyRequestData expectedRecvBytes actualRecvBytes &&
            Tracker.verifyResponseData expectedSentBytes actualSentBytes
          requestBuf := []
          responseBuf := []
          conn := Tracker.decRecordTestCount { conn with
            currentRecvBytesQueue := crq
            totalRecvBytesQueue := trq
            currentSentBytesQueue := csq
            totalSentBytesQueue := tsq } }
    | _, _, _, _ =>
      -- line 153: some byte-count queue is empty
      { recordTraffic := false, requestBuf := [], responseBuf := [],
        conn := conn.decRecordTestCount }
  else if conn.gotResponseDataEvent &&
      decide (4000000000 ≤ sub64 now conn.lastActivityTimestamp) then
    -- lines 162-202: possible last request of a keep-alive chain; the tracker
    -- is reset on every path of this branch
    match conn.currentRecvBytesQueue, conn.totalRecvBytesQueue with
    | expectedRecvBytes :: crq, actualRecvBytes :: trq =>
      match conn.currentRecvBufQueue with
      | requestBuf :: rbq =>
        { recordTraffic := Tracker.verifyRequestData expectedRecvBytes actualRecvBytes
          requestBuf := requestBuf
          responseBuf := conn.SentBuf
          conn := Tracker.resetConnection { conn with
            currentRecvBytesQueue := crq
            totalRecvBytesQueue := trq
            currentRecvBufQueue := rbq } }
      | _ =>
        { recordTraffic := false, requestBuf := [], responseBuf := [],
          conn := Tracker.resetConnection { conn with
            currentRecvBytesQueue := crq
            totalRecvBytesQueue := trq } }
    | _, _ =>
      { recordTraffic := false, requestBuf := [], responseBuf := [],
        conn := conn.resetConnection }
  else
    { recordTraffic := false, requestBuf := [], responseBuf := [], conn := conn }

/-- `AddDataEvent` (src/unnamed/part_002, lines 241-314).  `eventBodyMaxSize`
stands for the constant `structs2.EventBodyMaxSize` of the eBPF structs
package, which is outside this repository; `now` is `time.Now().UnixNano()`
seen by `UpdateTimestamps`. -/
def Tracker.addDataEvent (eventBodyMaxSize : Nat) (event : SocketDataEvent) (now : Nat)
    (conn : Tracker) : Tracker :=
  let conn := { conn with lastActivityTimestamp := wrap64 now }
  match event.direction with
  | .egress =>
    let msgLength := if eventBodyMaxSize < event.msgSize then eventBodyMaxSize else event.msgSize
    let conn := { conn with
      SentBuf := conn.SentBuf ++ event.msg.take msgLength
      sentBytes := wrap64 (conn.sentBytes + event.msgSize) }
    if conn.firstRequest || conn.gotRequestDataEvent then
      { conn with
        currentRecvBytesQueue := conn.currentRecvBytesQueue ++ [conn.recvBytes]
        recvBytes := 0
        currentRecvBufQueue := conn.currentRecvBufQueue ++ [conn.RecvBuf]
        RecvBuf := []
        gotRequestDataEvent := false
        gotResponseDataEvent := true
        totalRecvBytesQueue := conn.totalRecvBytesQueue ++ [wrap64 event.validateReadBytes]
        firstRequest := false }
    else
      conn
  | .ingress =>
    let msgLength := if eventBodyMaxSize < event.msgSize then eventBodyMaxSize else event.msgSize
    let conn := { conn with
      RecvBuf := conn.RecvBuf ++ event.msg.take msgLength
      recvBytes := wrap64 (conn.recvBytes + event.msgSize) }
    if !conn.firstRequest || conn.gotResponseDataEvent then
      ({ conn with
        currentSentBytesQueue := conn.currentSentBytesQueue ++ [conn.sentBytes]
        sentBytes := 0
        currentSentBufQueue := conn.currentSentBufQueue ++ [conn.SentBuf]
        SentBuf := []
        gotRequestDataEvent := true
        gotResponseDataEvent := false
        totalSentBytesQueue := conn.totalSentBytesQueue ++ [wrap64 event.validateWrittenBytes]
      } : Tracker).incRecordTestCount
    else
      conn
  | .other => conn

/-- `OutgoingType` of the HTTP parser (httpparser.go, lines 60-69). -/
def outgoingType (buffer : List Nat) : Bool :=
  (bs "HTTP/").isPrefixOf buffer ||
  (bs "GET ").isPrefixOf buffer ||
  (bs "POST ").isPrefixOf buffer ||
  (bs "PUT ").isPrefixOf buffer ||
  (bs "PATCH ").isPrefixOf buffer ||
  (bs "DELETE ").isPrefixOf buffer ||
  (bs "OPTIONS ").isPrefixOf buffer ||
  (bs "HEAD ").isPrefixOf buffer

theorem isPrefixOf_iff_append (l r : List Nat) :
    l.isPrefixOf r = true ↔ ∃ t, r = l ++ t := by
  induction l generalizing r with
  | nil => simp [List.isPrefixOf]
  | cons a as ih =>
    cases r with
    | nil => simp [List.isPrefixOf]
    | cons b bt =>
      simp only [List.isPrefixOf, Bool.and_eq_true, beq_iff_eq, ih, List.cons_append,
        List.cons.injEq]
      constructor
      · rintro ⟨rfl, t, rfl⟩
        exact ⟨t, rfl, rfl⟩
      · rintro ⟨t, rfl, rfl⟩
        exact ⟨rfl, t, rfl⟩

/-- Claim C5: for every byte buffer `b`, `OutgoingType b` returns true if and
only if `b` starts with "HTTP/" or with one of the method keywords "GET ",
"POST ", "PUT ", "PATCH ", "DELETE ", "OPTIONS ", "HEAD " followed by a
space (the space is part of the keyword). -/
theorem outgoingType_iff (b : List Nat) :
    outgoingType b = true ↔
      (∃ t, b = bs "HTTP/" ++ t) ∨ (∃ t, b = bs "GET " ++ t) ∨
      (∃ t, b = bs "POST " ++ t) ∨ (∃ t, b = bs "PUT " ++ t) ∨
      (∃ t, b = bs "PATCH " ++ t) ∨ (∃ t, b = bs "DELETE " ++ t) ∨
      (∃ t, b = bs "OPTIONS " ++ t) ∨ (∃ t, b = bs "HEAD " ++ t) := by
  simp only [outgoingType, Bool.or_eq_true, isPrefixOf_iff_append, or_assoc]

theorem wrapInt32_eq_self (n : Int) (h1 : -(2 ^ 31) ≤ n) (h2 : n < 2 ^ 31) :
    wrapInt32 n = n := by
  unfold wrapInt32
  have h3 : (0 : Int) ≤ n + 2 ^ 31 := by linarith
  have h4 : n + 2 ^ 31 < 2 ^ 32 := by
    have he : (2 : Int) ^ 32 = 2 ^ 31 + 2 ^ 31 := by norm_num
    linarith
  rw [Int.emod_eq_of_lt h3 h4]
  ring

/-- Claim C1 (amended): for every call to `Tracker.IsComplete` with
`recordTestCountAtomic > 0` (within the int32 range), all four byte-count
queues non-empty and both pending buffer queues non-empty, the function pops
one entry from each of the expected and actual receive and sent byte-count
queues and from the pending request and response buffer queues, decrements
the counter, and reports the exchange as valid if and only if the expected
byte count equals the actual byte count on both the receive side and the
sent side; the popped buffers are returned. -/
theorem isComplete_pos_count (now : Nat) (t : Tracker)
    (hc : 0 < t.recordTestCountAtomic) (hc2 : t.recordTestCountAtomic < 2 ^ 31)
    (e1 a1 e2 a2 : Nat) (crq trq csq tsq : List Nat)
    (rb sb : List Nat) (rbq sbq : List (List Nat))
    (h1 : t.currentRecvBytesQueue = e1 :: crq) (h2 : t.totalRecvBytesQueue = a1 :: trq)
    (h3 : t.currentSentBytesQueue = e2 :: csq) (h4 : t.totalSentBytesQueue = a2 :: tsq)
    (h5 : t.currentRecvBufQueue = rb :: rbq) (h6 : t.currentSentBufQueue = sb :: sbq) :
    ((t.isComplete now).recordTraffic = true ↔ (e1 = a1 ∧ e2 = a2)) ∧
    (t.isComplete now).requestBuf = rb ∧
    (t.isComplete now).responseBuf = sb ∧
    (t.isComplete now).conn.currentRecvBytesQueue = crq ∧
    (t.isComplete now).conn.totalRecvBytesQueue = trq ∧
    (t.isComplete now).conn.currentSentBytesQueue = csq ∧
    (t.isComplete now).conn.totalSentBytesQueue = tsq ∧
    (t.isComplete now).conn.currentRecvBufQueue = rbq ∧
    (t.isComplete now).conn.currentSentBufQueue = sbq ∧
    (t.isComplete now).conn.recordTestCountAtomic = t.recordTestCountAtomic - 1 := by
  have hdec : wrapInt32 (t.recordTestCountAtomic - 1) = t.recordTestCountAtomic - 1 := by
    refine wrapInt32_eq_self _ (by linarith) (by linarith)
  simp [Tracker.isComplete, h1, h2, h3, h4, h5, h6, hc, hdec,
    Tracker.decRecordTestCount, Tracker.verifyRequestData, Tracker.verifyResponseData]

/-- Witness for C1 (amended) at a concrete tracker state. -/
def witnessStateC1 : Tracker :=
  { newTracker with
    recordTestCountAtomic := 1
    currentRecvBytesQueue := [5]
    totalRecvBytesQueue := [5]
    currentSentBytesQueue := [7]
    totalSentBytesQueue := [7]
    currentRecvBufQueue := [[10]]
    currentSentBufQueue := [[20]] }

theorem isComplete_pos_count_witness :
    ((Tracker.isComplete 0 witnessStateC1).recordTraffic = true ↔ (5 = 5 ∧ 7 = 7)) ∧
    (Tracker.isComplete 0 witnessStateC1).requestBuf = [10] ∧
    (Tracker.isComplete 0 witnessStateC1).responseBuf = [20] ∧
    (Tracker.isComplete 0 witnessStateC1).conn.currentRecvBytesQueue = [] ∧
    (Tracker.isComplete 0 witnessStateC1).conn.totalRecvBytesQueue = [] ∧
    (Tracker.isComplete 0 witnessStateC1).conn.currentSentBytesQueue = [] ∧
    (Tracker.isComplete 0 witnessStateC1).conn.totalSentBytesQueue = [] ∧
    (Tracker.isComplete 0 witnessStateC1).conn.currentRecvBufQueue = [] ∧
    (Tracker.isComplete 0 witnessStateC1).conn.currentSentBufQueue = [] ∧
    (Tracker.isComplete 0 witnessStateC1).conn.recordTestCountAtomic =
      witnessStateC1.recordTestCountAtomic - 1 :=
  isComplete_pos_count 0 witnessStateC1 (by decide) (by decide) 5 5 7 7 [] [] [] []
    [10] [20] [] [] rfl rfl rfl rfl rfl rfl

/-- Counterexample state for C1 as frozen: the four byte-count queues are
non-empty and the counter is positive, but the pending buffer queues are
empty, so no buffer entry can be popped and none is returned. -/
def cexStateC1 : Tracker :=
  { newTracker with
    recordTestCountAtomic := 1
    currentRecvBytesQueue := [5]
    totalRecvBytesQueue := [5]
    currentSentBytesQueue := [7]
    totalSentBytesQueue := [7] }

/-- Claim C1 as frozen is false: at `cexStateC1` all of its stated
preconditions hold, yet the pending request and response buffer queues hold
no entry that could be popped and returned; `IsComplete` still reports the
exchange as valid and returns two empty buffers. -/
theorem isComplete_pos_count_cex :
    0 < cexStateC1.recordTestCountAtomic ∧
    cexStateC1.currentRecvBytesQueue ≠ [] ∧ cexStateC1.totalRecvBytesQueue ≠ [] ∧
    cexStateC1.currentSentBytesQueue ≠ [] ∧ cexStateC1.totalSentBytesQueue ≠ [] ∧
    ¬ (∃ rb rbq sb sbq, cexStateC1.currentRecvBufQueue = rb :: rbq ∧
        cexStateC1.currentSentBufQueue = sb :: sbq ∧
        (Tracker.isComplete 0 cexStateC1).requestBuf = rb ∧
        (Tracker.isComplete 0 cexStateC1).responseBuf = sb) ∧
    (Tracker.isComplete 0 cexStateC1).recordTraffic = true ∧
    (Tracker.isComplete 0 cexStateC1).requestBuf = [] ∧
    (Tracker.isComplete 0 cexStateC1).responseBuf = [] := by
  refine ⟨by decide, by decide, by decide, by decide, by decide, ?_, by decide, by decide,
    by decide⟩
  rintro ⟨rb, rbq, sb, sbq, hr, -, -, -⟩
  simp [cexStateC1, newTracker] at hr

/-- Claim C10: with a positive counter and all four byte-count queues
non-empty, the verdict of `IsComplete` is exactly the conjunction of the two
byte-count validations, independent of the pending buffer queues; when a
pending buffer queue is empty the returned request and response buffers are
both empty. -/
theorem isComplete_verdict_ignores_buffer_queues (now : Nat) (t : Tracker)
    (hc : 0 < t.recordTestCountAtomic)
    (e1 a1 e2 a2 : Nat) (crq trq csq tsq : List Nat)
    (h1 : t.currentRecvBytesQueue = e1 :: crq) (h2 : t.totalRecvBytesQueue = a1 :: trq)
    (h3 : t.currentSentBytesQueue = e2 :: csq) (h4 : t.totalSentBytesQueue = a2 :: tsq) :
    ((t.isComplete now).recordTraffic = true ↔ (e1 = a1 ∧ e2 = a2)) ∧
    (t.currentRecvBufQueue = [] ∨ t.currentSentBufQueue = [] →
      (t.isComplete now).requestBuf = [] ∧ (t.isComplete now).responseBuf = []) := by
  rcases hrb : t.currentRecvBufQueue with - | ⟨rb, rbq⟩ <;>
    rcases hsb : t.currentSentBufQueue with - | ⟨sb, sbq⟩ <;>
    simp [Tracker.isComplete, h1, h2, h3, h4, hrb, hsb, hc,
      Tracker.decRecordTestCount, Tracker.verifyRequestData, Tracker.verifyResponseData]

/-- Witness for C10: the counter is positive, the byte counts match on both
sides, the pending buffer queues are empty, and `IsComplete` returns true
together with two empty buffers. -/
def witnessStateC10 : Tracker :=
  { newTracker with
    recordTestCountAtomic := 2
    currentRecvBytesQueue := [3]
    totalRecvBytesQueue := [3]
    currentSentBytesQueue := [4]
    totalSentBytesQueue := [4] }

theorem isComplete_verdict_ignores_buffer_queues_witness :
    ((Tracker.isComplete 0 witnessStateC10).recordTraffic = true ↔ (3 = 3 ∧ 4 = 4)) ∧
    (witnessStateC10.currentRecvBufQueue = [] ∨ witnessStateC10.currentSentBufQueue = [] →
      (Tracker.isComplete 0 witnessStateC10).requestBuf = [] ∧
      (Tracker.isComplete 0 witnessStateC10).responseBuf = []) :=
  isComplete_verdict_ignores_buffer_queues 0 witnessStateC10 (by decide) 3 3 4 4 [] [] [] []
    rfl rfl rfl rfl

/-- Claim C6: when the counter is zero, a response data event has been seen
and at least four seconds of idle time have elapsed, `IsComplete` treats the
pending exchange as the last request of a keep-alive chain: it validates the
receive side only, returns the head of the pending request-buffer queue and
the current sent buffer as-is as the response, and resets the tracker to a
fresh state (`firstRequest` true, both direction flags cleared, buffers and
byte counters emptied); the sent-side queues are not consulted. -/
theorem isComplete_idle_last_request (now : Nat) (t : Tracker)
    (hc : t.recordTestCountAtomic = 0) (hg : t.gotResponseDataEvent = true)
    (hidle : 4000000000 ≤ sub64 now t.lastActivityTimestamp)
    (e1 a1 : Nat) (crq trq : List Nat) (rb : List Nat) (rbq : List (List Nat))
    (h1 : t.currentRecvBytesQueue = e1 :: crq) (h2 : t.totalRecvBytesQueue = a1 :: trq)
    (h5 : t.currentRecvBufQueue = rb :: rbq) :
    ((t.isComplete now).recordTraffic = true ↔ e1 = a1) ∧
    (t.isComplete now).requestBuf = rb ∧
    (t.isComplete now).responseBuf = t.SentBuf ∧
    (t.isComplete now).conn.firstRequest = true ∧
    (t.isComplete now).conn.gotResponseDataEvent = false ∧
    (t.isComplete now).conn.gotRequestDataEvent = false ∧
    (t.isComplete now).conn.RecvBuf = [] ∧
    (t.isComplete now).conn.SentBuf = [] ∧
    (t.isComplete now).conn.recvBytes = 0 ∧
    (t.isComplete now).conn.sentBytes = 0 ∧
    (t.isComplete now).conn.currentRecvBytesQueue = crq ∧
    (t.isComplete now).conn.totalRecvBytesQueue = trq ∧
    (t.isComplete now).conn.currentRecvBufQueue = rbq ∧
    (t.isComplete now).conn.currentSentBytesQueue = t.currentSentBytesQueue ∧
    (t.isComplete now).conn.totalSentBytesQueue = t.totalSentBytesQueue ∧
    (t.isComplete now).conn.currentSentBufQueue = t.currentSentBufQueue ∧
    (t.isComplete now).conn.recordTestCountAtomic = t.recordTestCountAtomic := by
  simp [Tracker.isComplete, h1, h2, h5, hc, hg, hidle,
    Tracker.resetConnection, Tracker.verifyRequestData]

/-- Witness for C6 at a concrete tracker state. -/
def witnessStateC6 : Tracker :=
  { newTracker with
    gotResponseDataEvent := true
    firstRequest := false
    SentBuf := [9, 9]
    currentRecvBytesQueue := [6]
    totalRecvBytesQueue := [6]
    currentRecvBufQueue := [[8]] }

theorem isComplete_idle_last_request_witness :
    ((Tracker.isComplete 4000000000 witnessStateC6).recordTraffic = true ↔ 6 = 6) ∧
    (Tracker.isComplete 4000000000 witnessStateC6).requestBuf = [8] ∧
    (Tracker.isComplete 4000000000 witnessStateC6).responseBuf = witnessStateC6.SentBuf ∧
    (Tracker.isComplete 4000000000 witnessStateC6).conn.firstRequest = true ∧
    (Tracker.isComplete 4000000000 witnessStateC6).conn.gotResponseDataEvent = false ∧
    (Tracker.isComplete 4000000000 witnessStateC6).conn.gotRequestDataEvent = false ∧
    (Tracker.isComplete 4000000000 witnessStateC6).conn.RecvBuf = [] ∧
    (Tracker.isComplete 4000000000 witnessStateC6).conn.SentBuf = [] ∧
    (Tracker.isComplete 4000000000 witnessStateC6).conn.recvBytes = 0 ∧
    (Tracker.isComplete 4000000000 witnessStateC6).conn.sentBytes = 0 ∧
    (Tracker.isComplete 4000000000 witnessStateC6).conn.currentRecvBytesQueue = [] ∧
    (Tracker.isComplete 4000000000 witnessStateC6).conn.totalRecvBytesQueue = [] ∧
    (Tracker.isComplete 4000000000 witnessStateC6).conn.currentRecvBufQueue = [] ∧
    (Tracker.isComplete 4000000000 witnessStateC6).conn.currentSentBytesQueue =
      witnessStateC6.currentSentBytesQueue ∧
    (Tracker.isComplete 4000000000 witnessStateC6).conn.totalSentBytesQueue =
      witnessStateC6.totalSentBytesQueue ∧
    (Tracker.isComplete 4000000000 witnessStateC6).conn.currentSentBufQueue =
      witnessStateC6.currentSentBufQueue ∧
    (Tracker.isComplete 4000000000 witnessStateC6).conn.recordTestCountAtomic =
      witnessStateC6.recordTestCountAtomic :=
  isComplete_idle_last_request 4000000000 witnessStateC6 rfl rfl (by decide) 6 6 [] []
    [8] [] rfl rfl rfl

/-- A one-byte ingress data event, used to grow the receive buffer. -/
def oneByteIngress : SocketDataEvent :=
  { direction := .ingress, msgSize := 1, msg := [65], validateReadBytes := 0,
    validateWrittenBytes := 0 }

theorem ingress_iterate_grows (n : Nat) :
    ((fun s => Tracker.addDataEvent 16384 oneByteIngress 0 s)^[n] newTracker).firstRequest
        = true ∧
    ((fun s => Tracker.addDataEvent 16384 oneByteIngress 0 s)^[n]
        newTracker).gotResponseDataEvent = false ∧
    ((fun s => Tracker.addDataEvent 16384 oneByteIngress 0 s)^[n]
        newTracker).RecvBuf.length = n := by
  induction n with
  | zero => simp [newTracker]
  | succ k ih =>
    obtain ⟨ih1, ih2, ih3⟩ := ih
    rw [Function.iterate_succ_apply']
    generalize (fun s => Tracker.addDataEvent 16384 oneByteIngress 0 s)^[k] newTracker = s
      at ih1 ih2 ih3 ⊢
    simp [Tracker.addDataEvent, oneByteIngress, ih1, ih2, ih3]

/-- Claim C2 is violated by the code: `AddDataEvent` never consults
`maxBufferSize`, so 16777217 one-byte ingress events drive the receive
buffer beyond the 16 MiB cap without dropping a byte, without any warning
and without marking anything malformed. -/
theorem recvBuf_exceeds_maxBufferSize :
    maxBufferSize <
      ((fun s => Tracker.addDataEvent 16384 oneByteIngress 0 s)^[16777217]
        newTracker).RecvBuf.length := by
  have h := (ingress_iterate_grows 16777217).2.2
  rw [h]
  norm_num [maxBufferSize]

/-- Reachable tracker states: every state produced from a fresh tracker by
any sequence of `AddDataEvent` and `IsComplete` calls, with arbitrary events
and clock readings. -/
inductive Reachable (eventBodyMaxSize : Nat) : Tracker → Prop where
  | init : Reachable eventBodyMaxSize newTracker
  | data (t : Tracker) (ht : Reachable eventBodyMaxSize t) (event : SocketDataEvent)
      (now : Nat) : Reachable eventBodyMaxSize (t.addDataEvent eventBodyMaxSize event now)
  | complete (t : Tracker) (ht : Reachable eventBodyMaxSize t) (now : Nat) :
      Reachable eventBodyMaxSize (Tracker.isComplete now t).conn

/-- Inductive invariant of the tracker queues: on each side, the two
byte-count queues and the buffer queue have equal length, the request side
is at most one ahead of the response side, and it is not ahead at all while
the tracker waits for request data. -/
def TrackerInv (t : Tracker) : Prop :=
  t.currentRecvBytesQueue.length = t.currentRecvBufQueue.length ∧
  t.totalRecvBytesQueue.length = t.currentRecvBufQueue.length ∧
  t.currentSentBytesQueue.length = t.currentSentBufQueue.length ∧
  t.totalSentBytesQueue.length = t.currentSentBufQueue.length ∧
  t.currentRecvBufQueue.length ≤ t.currentSentBufQueue.length + 1 ∧
  ((t.firstRequest = true ∨ t.gotRequestDataEvent = true) →
    t.currentRecvBufQueue.length ≤ t.currentSentBufQueue.length)

theorem trackerInv_newTracker : TrackerInv newTracker := by
  simp [TrackerInv, newTracker]

theorem trackerInv_addDataEvent (eventBodyMaxSize : Nat) (event : SocketDataEvent)
    (now : Nat) (t : Tracker) (h : TrackerInv t) :
    TrackerInv (t.addDataEvent eventBodyMaxSize event now) := by
  obtain ⟨h1, h2, h3, h4, h5, h6⟩ := h
  unfold Tracker.addDataEvent
  rcases event.direction with - | - | -
  · by_cases hc : (t.firstRequest || t.gotRequestDataEvent) = true
    · have hle : t.currentRecvBufQueue.length ≤ t.currentSentBufQueue.length := by
        rcases Bool.or_eq_true_iff.mp hc with hx | hx
        · exact h6 (Or.inl hx)
        · exact h6 (Or.inr hx)
      simp only [hc, if_true]
      simp [TrackerInv, h1, h2, h3, h4]
      omega
    · simp only [hc, if_false, Bool.false_eq_true]
      simp [TrackerInv, h1, h2, h3, h4, h5]
      intro hx
      exact h6 hx
  · by_cases hc : (!t.firstRequest || t.gotResponseDataEvent) = true
    · simp only [hc, if_true]
      simp [TrackerInv, Tracker.incRecordTestCount, h1, h2, h3, h4]
      omega
    · simp only [hc, if_false, Bool.false_eq_true]
      simp [TrackerInv, h1, h2, h3, h4, h5]
      intro hx
      exact h6 hx
  · exact ⟨h1, h2, h3, h4, h5, h6⟩

theorem trackerInv_isComplete (now : Nat) (t : Tracker) (h : TrackerInv t) :
    TrackerInv (Tracker.isComplete now t).conn := by
  obtain ⟨h1, h2, h3, h4, h5, h6⟩ := h
  unfold Tracker.isComplete
  by_cases hc : 0 < t.recordTestCountAtomic
  · rw [if_pos hc]
    split
    · rename_i e1 crq a1 trq e2 csq a2 tsq hq1 hq2 hq3 hq4
      split
      · rename_i rb rbq sbv sbq hb1 hb2
        rw [hq1] at h1
        rw [hq2] at h2
        rw [hq3] at h3
        rw [hq4] at h4
        rw [hb1] at h1 h2 h5 h6
        rw [hb2] at h3 h4 h5 h6
        simp only [List.length_cons] at h1 h2 h3 h4 h5 h6
        simp only [TrackerInv, Tracker.decRecordTestCount]
        refine ⟨by omega, by omega, by omega, by omega, by omega, fun hx => ?_⟩
        have h7 := h6 hx
        omega
      · rename_i hnm
        rw [hq1] at h1
        rw [hq3] at h3
        rcases hbr : t.currentRecvBufQueue with - | ⟨rb, rbq⟩
        · rw [hbr] at h1
          simp at h1
        rcases hbs : t.currentSentBufQueue with - | ⟨sbv, sbq⟩
        · rw [hbs] at h3
          simp at h3
        exact (hnm rb rbq sbv sbq hbr hbs).elim
    · exact ⟨h1, h2, h3, h4, h5, h6⟩
  · rw [if_neg hc]
    by_cases hg : (t.gotResponseDataEvent &&
        decide (4000000000 ≤ sub64 now t.lastActivityTimestamp)) = true
    · rw [if_pos hg]
      split
      · rename_i e1 crq a1 trq hq1 hq2
        split
        · rename_i rb rbq hb1
          rw [hq1] at h1
          rw [hq2] at h2
          rw [hb1] at h1 h2 h5 h6
          simp only [List.length_cons] at h1 h2 h5 h6
          simp only [TrackerInv, Tracker.resetConnection]
          refine ⟨by omega, by omega, by omega, by omega, by omega, fun hx => by omega⟩
        · rename_i hnm
          rw [hq1] at h1
          rcases hbr : t.currentRecvBufQueue with - | ⟨rb, rbq⟩
          · rw [hbr] at h1
            simp at h1
          · exact (hnm rb rbq hbr).elim
      · rename_i hnm
        rcases hbr : t.currentRecvBytesQueue with - | ⟨x, xs⟩
        · rw [hbr] at h1
          simp only [List.length_nil] at h1
          simp only [TrackerInv, Tracker.resetConnection, hbr, List.length_nil]
          refine ⟨by omega, by omega, by omega, by omega, by omega, fun hx => by omega⟩
        · rcases hbt : t.totalRecvBytesQueue with - | ⟨y, ys⟩
          · rw [hbt] at h2
            simp only [List.length_nil] at h2
            simp only [TrackerInv, Tracker.resetConnection, hbt, List.length_nil]
            refine ⟨by omega, by omega, by omega, by omega, by omega, fun hx => by omega⟩
          · exact (hnm x xs y ys hbr hbt).elim
    · rw [if_neg hg]
      exact ⟨h1, h2, h3, h4, h5, h6⟩

theorem reachable_trackerInv (eventBodyMaxSize : Nat) (t : Tracker)
    (h : Reachable eventBodyMaxSize t) : TrackerInv t := by
  induction h with
  | init => exact trackerInv_newTracker
  | data t ht event now ih => exact trackerInv_addDataEvent eventBodyMaxSize event now t ih
  | complete t ht now ih => exact trackerInv_isComplete now t ih

/-- Claim C7 (amended): in every state reachable by any sequence of
`AddDataEvent` and `IsComplete` calls, the pending request-buffer queue is
at most one entry longer than the pending response-buffer queue — the two
lengths need not be equal while the counter is positive, and the response
side may run ahead of the request side without bound. -/
theorem reachable_recvBufQueue_le (eventBodyMaxSize : Nat) (t : Tracker)
    (h : Reachable eventBodyMaxSize t) :
    t.currentRecvBufQueue.length ≤ t.currentSentBufQueue.length + 1 :=
  (reachable_trackerInv eventBodyMaxSize t h).2.2.2.2.1

theorem reachable_recvBufQueue_le_witness :
    newTracker.currentRecvBufQueue.length ≤ newTracker.currentSentBufQueue.length + 1 :=
  reachable_recvBufQueue_le 16384 newTracker Reachable.init

/-- A one-byte egress data event, used in the C7 counterexample trace. -/
def oneByteEgress : SocketDataEvent :=
  { direction := .egress, msgSize := 1, msg := [66], validateReadBytes := 0,
    validateWrittenBytes := 0 }

/-- A four-event trace: request data, response data, second request data,
second response data, all on one connection. -/
def keepAliveTrace : Tracker :=
  Tracker.addDataEvent 16384 oneByteEgress 3
    (Tracker.addDataEvent 16384 oneByteIngress 2
      (Tracker.addDataEvent 16384 oneByteEgress 1
        (Tracker.addDataEvent 16384 oneByteIngress 0 newTracker)))

/-- Claim C7 as frozen is false: after the reachable four-event keep-alive
trace the completed-exchange counter is positive while the pending
request-buffer queue holds two entries and the pending response-buffer
queue only one. -/
theorem reachable_recvBufQueue_cex :
    Reachable 16384 keepAliveTrace ∧
    0 < keepAliveTrace.recordTestCountAtomic ∧
    keepAliveTrace.currentRecvBufQueue.length ≠ keepAliveTrace.currentSentBufQueue.length := by
  refine ⟨?_, by decide, by decide⟩
  exact Reachable.data _ (Reachable.data _ (Reachable.data _
    (Reachable.data _ Reachable.init oneByteIngress 0) oneByteEgress 1) oneByteIngress 2)
    oneByteEgress 3

/-! HTTP parser embedding (src/pkg/proxy/integrations/httpparser/httpparser.go).
Header maps `map[string][]string` are modelled as association lists; the gzip
codec and `http.StatusText` are parameters. -/

/-- Lookup of a Go map entry `header[key]`. -/
def lookupHeader (header : List (String × List String)) (key : String) :
    Option (List String) :=
  (header.find? (fun kv => kv.1 == key)).map (fun kv => kv.2)

/-- Go `http.Header.Get`: the first value of the entry, or the empty string. -/
def headerGet (header : List (String × List String)) (key : String) : String :=
  match lookupHeader header key with
  | some (v :: _) => v
  | _ => ""

/-- Go `http.Header.Set`: replace the entry by the single given value, or add
it when absent. -/
def headerSet (header : List (String × List String)) (key value : String) :
    List (String × List String) :=
  if header.any (fun kv => kv.1 == key) then
    header.map (fun kv => if kv.1 == key then (kv.1, [value]) else kv)
  else
    header ++ [(key, [value])]

/-- The request and response shape of a stored HTTP mock
(`stub.Spec.HttpReq`, `stub.Spec.HttpResp`), restricted to the fields
`decodeOutgoingHttp` reads when synthesizing the wire response. -/
structure HttpReqSpec where
  protoMajor : Nat
  protoMinor : Nat

structure HttpRespSpec where
  statusCode : Nat
  header : List (String × List String)
  body : List Nat

structure MockHttpSpec where
  httpReq : HttpReqSpec
  httpResp : HttpRespSpec

/-- The status line `fmt.Sprintf("HTTP/%d.%d %d %s\r\n", ...)` of
`decodeOutgoingHttp` (line 510); `statusText` stands for `http.StatusText`. -/
def statusLine (statusText : Nat → String) (stub : MockHttpSpec) : List Nat :=
  bs ("HTTP/" ++ toString stub.httpReq.protoMajor ++ "." ++
    toString stub.httpReq.protoMinor ++ " " ++ toString stub.httpResp.statusCode ++ " " ++
    statusText stub.httpResp.statusCode ++ "\r\n")

/-- The inner loop `for _, value := range values`: one `key: value\r\n` line
per value. -/
def renderValues (key : String) (values : List String) : List Nat :=
  match values with
  | [] => []
  | v :: rest => bs (key ++ ": " ++ v ++ "\r\n") ++ renderValues key rest

/-- The header loop of `decodeOutgoingHttp` (lines 540-549): every entry is
rendered, with the `Content-Length` values replaced by the length of the
response body about to be sent. -/
def renderHeaders (respBodyLen : Nat) (header : List (String × List String)) : List Nat :=
  match header with
  | [] => []
  | (key, values) :: rest =>
    renderValues key (if key == "Content-Length" then [Nat.repr respBodyLen] else values) ++
    renderHeaders respBodyLen rest

/-- Plain header rendering with no substitution (used to state the claim). -/
def renderHeadersPlain (header : List (String × List String)) : List Nat :=
  match header with
  | [] => []
  | (key, values) :: rest => renderValues key values ++ renderHeadersPlain rest

/-- The gzip test of `decodeOutgoingHttp` (line 520):
`header["Content-Encoding"] != nil && header["Content-Encoding"][0] == "gzip"`. -/
def isGzipEncoded (stub : MockHttpSpec) : Bool :=
  match lookupHeader stub.httpResp.header "Content-Encoding" with
  | some (v :: _) => v == "gzip"
  | _ => false

/-- The response synthesis of `decodeOutgoingHttp` (lines 510-550):
`gzipCompress` stands for the `compress/gzip` writer.  `none` models the Go
panic when the `Content-Encoding` entry exists but holds no value. -/
def decodeMockResponse (statusText : Nat → String) (gzipCompress : List Nat → List Nat)
    (stub : MockHttpSpec) : Option (List Nat) :=
  match lookupHeader stub.httpResp.header "Content-Encoding" with
  | some [] => none
  | some (v :: _) =>
    let respBody := if v == "gzip" then gzipCompress stub.httpResp.body else stub.httpResp.body
    some (statusLine statusText stub ++ renderHeaders respBody.length stub.httpResp.header ++
      bs "\r\n" ++ respBody)
  | none =>
    some (statusLine statusText stub ++
      renderHeaders stub.httpResp.body.length stub.httpResp.header ++
      bs "\r\n" ++ stub.httpResp.body)

/-- The wire response as the specification words it: the status line, the
mock headers with the `Content-Length` value replaced by the length of the
body actually sent, a blank line, and that body. -/
def specWireResponse (statusText : Nat → String) (sentBody : List Nat)
    (stub : MockHttpSpec) : List Nat :=
  statusLine statusText stub ++
  renderHeadersPlain (stub.httpResp.header.map (fun kv =>
    match kv.1 == "Content-Length" with
    | true => (kv.1, [Nat.repr sentBody.length])
    | false => kv)) ++
  bs "\r\n" ++ sentBody

theorem renderHeaders_eq_plain (n : Nat) (header : List (String × List String)) :
    renderHeaders n header = renderHeadersPlain (header.map (fun kv =>
      match kv.1 == "Content-Length" with
      | true => (kv.1, [Nat.repr n])
      | false => kv)) := by
  induction header with
  | nil => rfl
  | cons kv rest ih =>
    obtain ⟨key, values⟩ := kv
    cases hk : key == "Content-Length" <;>
      simp [renderHeaders, renderHeadersPlain, hk, ih]

/-- Claim C3: for every matched HTTP mock whose header map does not hit the
Go panic edge (a `Content-Encoding` entry with an empty value list), the
response written to the client is the wire string made of the status line,
the mock headers with `Content-Length` recomputed to the length of the body
actually sent, a blank line, and the body, where the body is the stored body
re-compressed by gzip exactly when the stored response carries
`Content-Encoding: gzip`. -/
theorem decodeOutgoingHttp_wire_response (statusText : Nat → String)
    (gzipCompress : List Nat → List Nat) (stub : MockHttpSpec)
    (hnp : lookupHeader stub.httpResp.header "Content-Encoding" ≠ some []) :
    decodeMockResponse statusText gzipCompress stub =
      some (specWireResponse statusText
        (if isGzipEncoded stub then gzipCompress stub.httpResp.body else stub.httpResp.body)
        stub) := by
  rcases hce : lookupHeader stub.httpResp.header "Content-Encoding" with - | ⟨- | ⟨v, vs⟩⟩
  · simp [decodeMockResponse, specWireResponse, isGzipEncoded, hce, renderHeaders_eq_plain]
  · exact absurd hce hnp
  · by_cases hv : (v == "gzip") = true
    · simp [decodeMockResponse, specWireResponse, isGzipEncoded, hce, hv,
        renderHeaders_eq_plain]
    · simp only [Bool.not_eq_true] at hv
      simp [decodeMockResponse, specWireResponse, isGzipEncoded, hce, hv,
        renderHeaders_eq_plain]

/-- Witness mock for C3: a gzip-encoded 200 response with a stale
Content-Length. -/
def witnessStubC3 : MockHttpSpec :=
  { httpReq := { protoMajor := 1, protoMinor := 1 }
    httpResp := { statusCode := 200
                  header := [("Content-Encoding", ["gzip"]), ("Content-Length", ["999"])]
                  body := [104, 105] } }

theorem decodeOutgoingHttp_wire_response_witness :
    decodeMockResponse (fun _ => "OK") (fun b => 31 :: 139 :: b) witnessStubC3 =
      some (specWireResponse (fun _ => "OK")
        (if isGzipEncoded witnessStubC3 then 31 :: 139 :: witnessStubC3.httpResp.body
         else witnessStubC3.httpResp.body) witnessStubC3) :=
  decodeOutgoingHttp_wire_response (fun _ => "OK") (fun b => 31 :: 139 :: b) witnessStubC3
    (by decide)

/-- The gzip magic-byte test `checkIfGzipped` (httpparser.go, lines 415-430):
the body starts with `0x1f 0x8b`. -/
def checkIfGzipped (body : List Nat) : Bool :=
  match body with
  | b1 :: b2 :: _ => b1 == 31 && b2 == 139
  | _ => false

/-- The response storage step of `ParseFinalHttp` (httpparser.go, lines
765-791): when the `Content-Encoding` header says gzip and the body carries
the gzip magic, the body is decoded before storage (`gunzip` stands for the
`compress/gzip` reader; `none` models a decoder error, which aborts the
parse); otherwise the bytes are stored as-is.  In both cases the stored
`Content-Length` is set to the length of the stored body. -/
def parseFinalHttpStoredResponse (gunzip : List Nat → Option (List Nat))
    (respHeader : List (String × List String)) (respBody : List Nat) :
    Option (List (String × List String) × List Nat) :=
  if headerGet respHeader "Content-Encoding" == "gzip" && checkIfGzipped respBody then
    match gunzip respBody with
    | none => none
    | some decoded =>
      some (headerSet respHeader "Content-Length" (Nat.repr decoded.length), decoded)
  else
    some (headerSet respHeader "Content-Length" (Nat.repr respBody.length), respBody)

/-- Claim C4: in record mode, if the captured response carries
`Content-Encoding: gzip` and its body is a gzip stream (every gzip stream
starts with the magic bytes `0x1f 0x8b`) that the decoder accepts, the body
is decompressed before storage; otherwise the body bytes are stored as-is.
In both cases the stored `Content-Length` equals the length of the stored
body. -/
theorem parseFinalHttp_storage (gunzip : List Nat → Option (List Nat))
    (respHeader : List (String × List String)) (respBody : List Nat) :
    (∀ decoded, headerGet respHeader "Content-Encoding" = "gzip" →
      checkIfGzipped respBody = true → gunzip respBody = some decoded →
      parseFinalHttpStoredResponse gunzip respHeader respBody =
        some (headerSet respHeader "Content-Length" (Nat.repr decoded.length), decoded)) ∧
    (headerGet respHeader "Content-Encoding" ≠ "gzip" →
      parseFinalHttpStoredResponse gunzip respHeader respBody =
        some (headerSet respHeader "Content-Length" (Nat.repr respBody.length), respBody)) := by
  constructor
  · intro decoded hce hmagic hdec
    simp [parseFinalHttpStoredResponse, hce, hmagic, hdec]
  · intro hce
    have hb : (headerGet respHeader "Content-Encoding" == "gzip") = false := by
      simpa using hce
    simp [parseFinalHttpStoredResponse, hb]

theorem parseFinalHttp_storage_witness :
    parseFinalHttpStoredResponse (fun b => some (List.drop 2 b))
        [("Content-Encoding", ["gzip"])] [31, 139, 7] =
      some (headerSet [("Content-Encoding", ["gzip"])] "Content-Length"
        (Nat.repr ([7] : List Nat).length), [7]) ∧
    parseFinalHttpStoredResponse (fun b => some (List.drop 2 b)) [] [1, 2] =
      some (headerSet [] "Content-Length" (Nat.repr ([1, 2] : List Nat).length), [1, 2]) :=
  ⟨(parseFinalHttp_storage (fun b => some (List.drop 2 b))
      [("Content-Encoding", ["gzip"])] [31, 139, 7]).1 [7] (by decide) (by decide) rfl,
   (parseFinalHttp_storage (fun b => some (List.drop 2 b)) [] [1, 2]).2 (by decide)⟩

/-- Outcome of the no-match branch of `decodeOutgoingHttp` (lines 493-508):
whether the miss was logged and which buffers were handed to
`util.Passthrough`. -/
structure MissOutcome where
  missLogged : Bool
  forwardedBuffers : List (List Nat)
deriving DecidableEq

/-- The no-match branch of `decodeOutgoingHttp`: the Go for-loop scans
`models.PassThroughHosts` without breaking, the miss is logged only when the
request host was not found, and the original request buffer is handed to
`util.Passthrough` as the single buffer `[][]byte{requestBuffer}`. -/
def decodeNoMatchBranch (passThroughHosts : List String) (reqHost : String)
    (requestBuffer : List Nat) : MissOutcome :=
  { missLogged :=
      !(passThroughHosts.foldl (fun acc host => if reqHost == host then true else acc) false)
    forwardedBuffers := [requestBuffer] }

/-- Modelled from the spec: `util.Passthrough` (package `pkg/proxy/util`, not
under src/) writes the given buffers to the destination connection and
relays the destination response back to the client unmodified. -/
def passthroughRelay (buffers : List (List Nat)) (destResponse : List Nat) :
    List (List Nat) × List Nat :=
  (buffers, destResponse)

theorem foldl_host_scan (reqHost : String) (hosts : List String) (acc : Bool) :
    hosts.foldl (fun acc host => if reqHost == host then true else acc) acc =
      (acc || hosts.any (fun host => reqHost == host)) := by
  induction hosts generalizing acc with
  | nil => simp
  | cons hh tt ih =>
    rw [List.foldl_cons, ih, List.any_cons]
    cases reqHost == hh
    · rw [if_neg (by decide)]
      simp
    · rw [if_pos (by decide)]
      simp

/-- Claim C8: in replay mode, when the matcher finds no mock the request
buffer is handed unmodified to the pass-through relay, which forwards it to
the real destination and returns the destination response unmodified, and
the miss is logged if and only if the request host is not on the
pass-through host list. -/
theorem decodeOutgoingHttp_no_match (passThroughHosts : List String) (reqHost : String)
    (requestBuffer destResponse : List Nat) :
    ((decodeNoMatchBranch passThroughHosts reqHost requestBuffer).missLogged = true ↔
      reqHost ∉ passThroughHosts) ∧
    passthroughRelay
        (decodeNoMatchBranch passThroughHosts reqHost requestBuffer).forwardedBuffers
        destResponse = ([requestBuffer], destResponse) := by
  refine ⟨?_, rfl⟩
  show (!(passThroughHosts.foldl (fun acc host => if reqHost == host then true else acc)
      false)) = true ↔ reqHost ∉ passThroughHosts
  rw [foldl_host_scan]
  simp only [Bool.false_or, Bool.not_eq_true', List.any_eq_false, beq_iff_eq]
  constructor
  · intro hall hmem
    exact hall reqHost hmem rfl
  · intro hnm x hx h
    subst h
    exact hnm hx

/-- Go `strings.Split(s, "\n")`, on the characters of the string. -/
def splitLines (s : List Char) : List (List Char) :=
  match s with
  | [] => [[]]
  | c :: rest =>
    if c = '\n' then [] :: splitLines rest
    else
      match splitLines rest with
      | l :: ls => (c :: l) :: ls
      | [] => [[c]]

/-- Go `strings.TrimSpace`, on characters. -/
def trimSpace (s : List Char) : List Char :=
  ((s.dropWhile Char.isWhitespace).reverse.dropWhile Char.isWhitespace).reverse

/-- The header scan at the top of the keep-alive loop of `encodeOutgoingHttp`
(lines 594-601): the first line starting with `Expect:` yields the trimmed
remainder, otherwise the value stays empty. -/
def expectHeaderValue (finalReq : List Char) : List Char :=
  match (splitLines finalReq).find? (fun line => ("Expect:".data).isPrefixOf line) with
  | some line => trimSpace (line.drop ("Expect:".data.length))
  | none => []

/-- Outcome of the Expect-handling segment: either the loop proceeds with the
(possibly extended) request, or the function returns early carrying the Go
error value it returns (`none` models a nil error). -/
inductive ExpectPhaseOutcome where
  | proceed (finalReq : List Char)
  | earlyReturn (err : Option String)
deriving DecidableEq

/-- The `Expect: 100-continue` segment of `encodeOutgoingHttp` (lines
593-636), with the network reads and writes assumed to succeed:
`serverReply` is what `util.ReadBytes(destConn)` returns and `nextRequest`
what the follow-up `util.ReadBytes(clientConn)` returns.  When the reply is
not `HTTP/1.1 100 Continue\r\n\r\n` the Go code logs and executes
`return err`, but at that point `err` still holds the nil result of the
preceding successful `clientConn.Write`, so the function returns a nil
error. -/
def encodeExpectPhase (finalReq serverReply nextRequest : List Char) : ExpectPhaseOutcome :=
  if expectHeaderValue finalReq = "100-continue".data then
    if serverReply ≠ "HTTP/1.1 100 Continue\r\n\r\n".data then
      ExpectPhaseOutcome.earlyReturn none
    else
      ExpectPhaseOutcome.proceed (finalReq ++ nextRequest)
  else
    ExpectPhaseOutcome.proceed finalReq

/-- Claim C9 names a real defect: on a request carrying
`Expect: 100-continue` answered by a non-100 reply, `encodeOutgoingHttp`
aborts the connection but returns the stale nil error, so the recording
function does not return a non-nil error as the specification demands. -/
theorem encodeExpectPhase_non100_returns_nil :
    encodeExpectPhase ("POST /upload HTTP/1.1\r\nExpect: 100-continue\r\n\r\n".data)
        ("HTTP/1.1 417 Expectation Failed\r\n\r\n".data) [] =
      ExpectPhaseOutcome.earlyReturn none := by
  decide
